import Mathlib

/-!
Verification of the mauth middleware (`mauth/middleware.py`), a Swift
auth middleware.  The file shallowly embeds the middleware's two entry
points:

* `MultiAuth.__call__` (identity resolution: S3 header, auth-endpoint
  credentials, bearer token), modelled by `mauthCall`;
* `MultiAuth.authorize` (the per-request authorization decision),
  modelled by `authorize`;
* `MultiAuth.denied_response`, modelled by `denied_response`.

External collaborators (memcache, the pluggable identity provider, the
base64/HMAC routines from the standard library, and swift's
`parse_acl`/`referrer_allowed`) are modelled by explicit parameters or by
their outputs.  Machine integers do not overflow in the Python source, so
timestamps are `Int` and TTLs `Nat`.  Uncaught Python exceptions are
modelled by an explicit `Outcome.crash` constructor naming the exception.
-/

/-! ## Python string primitives (kernel-friendly reimplementations) -/

/-- Python truthiness of an optional string header value: `None` and the
empty string are falsy. -/
def truthy : Option String → Bool
  | none => false
  | some s => decide (s ≠ "")

/-- Auxiliary for `pySplitLimit`: splits a character list at `sep`, doing at
most `limit` splits (Python `str.split(sep, limit)` keeps empty fields). -/
def pySplitLimitAux (sep : Char) : List Char → Nat → List Char → List String
  | [], _, acc => [String.mk acc.reverse]
  | c :: cs, limit, acc =>
    if c = sep then
      match limit with
      | 0 => pySplitLimitAux sep cs 0 (c :: acc)
      | l + 1 => String.mk acc.reverse :: pySplitLimitAux sep cs l []
    else pySplitLimitAux sep cs limit (c :: acc)

/-- Python `s.split(sep, limit)` for a single-character separator. -/
def pySplitLimit (s : String) (sep : Char) (limit : Nat) : List String :=
  pySplitLimitAux sep s.data limit []

/-- Python `s.split(sep)` (unlimited) for a single-character separator. -/
def pySplitAll (s : String) (sep : Char) : List String :=
  pySplitLimitAux sep s.data s.data.length []

/-- Python `s.rsplit(sep, 1)` on a single colon, as used on the S3
`Authorization` header (line 133).  Returns `none` when the string holds no
colon, in which case the source's two-target unpacking raises `ValueError`. -/
def pyRsplitColon (s : String) : Option (String × String) :=
  match s.data.reverse.span (fun c => decide (c ≠ ':')) with
  | (_, []) => none
  | (afterRev, _ :: beforeRev) =>
    some (String.mk beforeRev.reverse, String.mk afterRev.reverse)

/-- Python `s.startswith(pre)`. -/
def pyStartsWith (s pre : String) : Bool :=
  pre.data.isPrefixOf s.data

/-- Python `s[n:]` (drop the first `n` characters). -/
def pyDrop (s : String) (n : Nat) : String :=
  String.mk (s.data.drop n)

/-- Python `':'.join(xs)`. -/
def joinColon : List String → String
  | [] => ""
  | [x] => x
  | x :: y :: xs => x ++ ":" ++ joinColon (y :: xs)

/-- Auxiliary for `pyReplace`: replaces every (leftmost, non-overlapping)
occurrence of `pat` by `repl`.  Structural recursion on a fuel counter;
each step consumes at least one character, so fuel equal to the input
length (as supplied by `pyReplace`) never runs out.  The source only calls
this with a non-empty pattern (line 134 guards the access key against
emptiness), so the empty pattern is treated as matching nowhere. -/
def pyReplaceAux (pat repl : List Char) : Nat → List Char → List Char
  | _, [] => []
  | 0, l => l
  | fuel + 1, c :: cs =>
    if pat ≠ [] ∧ pat.isPrefixOf (c :: cs) then
      repl ++ pyReplaceAux pat repl fuel (cs.drop (pat.length - 1))
    else
      c :: pyReplaceAux pat repl fuel cs

/-- Python `s.replace(pat, repl)` (all occurrences), used for the S3 path
rewrite on lines 154-156. -/
def pyReplace (s pat repl : String) : String :=
  String.mk (pyReplaceAux pat.data repl.data s.data.length s.data)

/-! ## Data model -/

/-- A resolved identity record, per the identity dictionaries the middleware
reads: `account`, `roles`, `token`, `expires`, `account_url` and an optional
S3 signing `secret`. -/
structure Identity where
  account : String
  roles : List String
  token : String
  expires : Int
  account_url : String
  secret : Option String
deriving DecidableEq

/-- Payload cached under `mauth_s3_apikey/<key>`: a dict with keys
`secret` (read via `data.get('secret', '')`, line 147) and `identity`
(read via `data.get('identity', None)`, line 149). -/
structure S3Data where
  secret : Option String
  identity : Option Identity
deriving DecidableEq

/-- Middleware configuration from `MultiAuth.__init__`.  The source's field
`reseller_prefix` (default `''`) is called `reseller_pfx` here;
`cache_timeout` defaults to 86400 and `allowed_sync_hosts` to
`['127.0.0.1']`. -/
structure Conf where
  reseller_pfx : String
  cache_timeout : Int
  storage_url : String
  allowed_sync_hosts : List String
deriving DecidableEq

/-- The WSGI environment slice consumed by `__call__`.  Header values are
optional strings (absent key = `none`); `HTTP_X_AUTH_TTL` is modelled
numerically (a TTL in seconds) with the source's default of 1 applied at the
read site (line 182). -/
structure Env where
  authorization : Option String
  x_auth_user : Option String
  x_auth_key : Option String
  x_auth_token : Option String
  x_storage_token : Option String
  x_auth_ttl : Option Nat
  path_info : String
deriving DecidableEq

/-- The memcache client, as three key-indexed partial maps.  Keys carry the
source's namespaces: `mauth_s3_apikey/...`, `mauth_creds/<user>/<key>`,
`mauth_token/...`.  Every stored value is an `(expires, payload)` pair. -/
structure Cache where
  s3key : String → Option (Int × S3Data)
  creds : String → Option (Int × Identity)
  tokenC : String → Option (Int × Identity)

/-- The base64/HMAC collaborators of the S3 verification step (line 146-147):
`urlsafe_b64decode` is partial (`none` models the uncaught decode exception);
`sign secret msg` is `base64.b64encode(hmac.new(secret, msg, sha1).digest())`. -/
structure Crypto where
  urlsafe_b64decode : String → Option String
  sign : String → String → String

/-- The pluggable identity provider.  In the source, `validate_token` is the
only extension point whose return value `__call__` consumes (line 225);
`get_identity` and `get_s3_identity` are invoked with their results
discarded, so only their invocation is observable. -/
structure Provider where
  validate_token : Option String → Option Identity

/-! ## split_path -/

/-- swift's `split_path(path, minsegs=1, maxsegs=2, rest_with_last=True)`
as called on line 168: `none` models the `ValueError`. -/
def split_path12 (path : String) : Option (String × Option String) :=
  match pySplitLimit path '/' 2 with
  | "" :: s1 :: rest => if s1 = "" then none else some (s1, rest[0]?)
  | _ => none

/-- swift's `split_path(path, minsegs=1, maxsegs=4, rest_with_last=True)`
as called on line 253: `none` models the `ValueError`; the result is
`(version, account?, container?, object?)`. -/
def split_path14 (path : String) :
    Option (String × Option String × Option String × Option String) :=
  match pySplitLimit path '/' 4 with
  | "" :: s1 :: rest =>
    if s1 = "" then none else some (s1, rest[0]?, rest[1]?, rest[2]?)
  | _ => none

/-! ## The authorization decision (`MultiAuth.authorize`, lines 248-294) -/

/-- The decision `authorize` produces: `HTTPNotFound`, allow (returning
`None`, with `owner = true` recording `swift_owner = True`), or the two
denial classes of `denied_response`. -/
inductive Decision where
  | notFound
  | allow (owner : Bool)
  | forbidden
  | unauthorized
deriving DecidableEq

/-- The per-request context `authorize` reads: the path, the resolved
identity (`env.get('mauth.identity', {})`; the empty dict is `none`), the
container-sync inputs, and the container-ACL inputs.  swift's
`parse_acl`/`referrer_allowed` are external collaborators modelled by their
outputs: `groups` is the parsed group list and `refererMatches` the value of
`referrer_allowed(req.referer, referrers)`. -/
structure AuthReq where
  path : String
  identity : Option Identity
  swift_sync_key : Option String
  sync_key_header : Option String
  has_timestamp : Bool
  remote_addr : String
  remote_client : String
  refererMatches : Bool
  groups : List String
  remote_user : Option String
deriving DecidableEq

/-- `MultiAuth.denied_response` (lines 296-304): 403 when `REMOTE_USER` is
set (truthy), else 401. -/
def denied_response (req : AuthReq) : Decision :=
  if truthy req.remote_user then Decision.forbidden else Decision.unauthorized

/-- The container-sync condition of lines 274-275. -/
def syncAllowed (cfg : Conf) (req : AuthReq) : Bool :=
  truthy req.swift_sync_key &&
    decide (req.swift_sync_key = req.sync_key_header) &&
    req.has_timestamp &&
    (cfg.allowed_sync_hosts.contains req.remote_addr ||
      cfg.allowed_sync_hosts.contains req.remote_client)

/-- Lines 260-264: strip the reseller prefix (and the separator character
after it) from the path's account segment; with an empty configured prefix
the account is kept whole. -/
def stripPfx (cfg : Conf) (acct : String) : String :=
  if cfg.reseller_pfx = "" then acct else pyDrop acct (cfg.reseller_pfx.length + 1)

/-- `MultiAuth.authorize` (lines 248-294). -/
def authorize (cfg : Conf) (req : AuthReq) : Decision :=
  match split_path14 req.path with
  | none => Decision.notFound
  | some (_, ao, _, objOpt) =>
    if truthy ao = false ∨ pyStartsWith (ao.getD "") cfg.reseller_pfx = false then
      denied_response req
    else if some (stripPfx cfg (ao.getD "")) = req.identity.map (fun i => i.account) then
      Decision.allow true
    else if syncAllowed cfg req then
      Decision.allow false
    else if req.refererMatches then
      if truthy objOpt || req.groups.contains ".rlistings" then Decision.allow false
      else denied_response req
    else if ((req.identity.map (fun i => i.roles)).getD []).any
        (fun r => req.groups.contains r) then
      Decision.allow false
    else
      denied_response req

/-! ## Basic lemmas about `authorize` -/

theorem denied_response_ne_allow (req : AuthReq) (b : Bool) :
    denied_response req ≠ Decision.allow b := by
  unfold denied_response
  split <;> intro h <;> exact Decision.noConfusion h

theorem denied_response_ne_notFound (req : AuthReq) :
    denied_response req ≠ Decision.notFound := by
  unfold denied_response
  split <;> intro h <;> exact Decision.noConfusion h

/-! ## The request entry point (`MultiAuth.__call__`, lines 126-245) -/

/-- Which callable `__call__` installs as `env['swift.authorize']` before
forwarding downstream: the real `authorize` method or the deny-only
`denied_response`. -/
inductive Hook where
  | authorizeHook
  | denyHook
deriving DecidableEq

/-- The observable outcome of one `__call__` invocation:
* `notFound` — the direct `HTTPNotFound` of line 170;
* `respond token url` — the direct auth response of lines 191-195, whose
  `x-auth-token` and `x-storage-token` headers both carry `token` and whose
  `x-storage-url` header carries `url`;
* `forward hook identity remote_user path_info` — `self.app(env, ...)` with
  the given hook installed, `env['mauth.identity']`, `env['REMOTE_USER']`
  and `env['PATH_INFO']`;
* `crash e` — an uncaught Python exception named `e` escapes `__call__`. -/
inductive Outcome where
  | notFound
  | respond (token : String) (storage_url : String)
  | forward (hook : Hook) (identity : Option Identity)
      (remote_user : Option String) (path_info : String)
  | crash (e : String)
deriving DecidableEq

/-- The result of `__call__` together with which provider extension points
were invoked and which cache writes `(key, expires, identity)` were issued
(the source additionally passes `timeout = expires - time()` to the write,
line 228). -/
structure CallResult where
  outcome : Outcome
  called_get_s3_identity : Bool
  called_get_identity : Bool
  called_validate_token : Bool
  writes : List (String × Int × Identity)
deriving DecidableEq

/-- The local state of `__call__` between its blocks: the locals `identity`
and `token` (`tokenVar = none` models the *unbound* local — referencing it
raises `UnboundLocalError` — while `some none` models `token = None`),
the current `PATH_INFO`, and which discarded-result provider calls were
made so far. -/
structure MidSt where
  identity : Option Identity
  tokenVar : Option (Option String)
  path_info : String
  s3_called : Bool
  creds_called : Bool
deriving DecidableEq

/-- Either an early return from a block of `__call__` or a continuation
state. -/
inductive Step where
  | ret (r : CallResult)
  | cont (st : MidSt)
deriving DecidableEq

/-- A `CallResult` for returns that happen before the token-resolution tail
(so `validate_token` was not called and nothing was written). -/
def earlyResult (st : MidSt) (o : Outcome) : CallResult :=
  { outcome := o
    called_get_s3_identity := st.s3_called
    called_get_identity := st.creds_called
    called_validate_token := false
    writes := [] }

/-- The cache-hit validity test shared by all three lookups (lines 140-143,
182-185, 217-221): the entry must be present, the gate (configured
`cache_timeout > 0`, plus `HTTP_X_AUTH_TTL > 0` on the creds path) must
hold, and the stored `expires` must be strictly in the future.  Returns the
payload exactly when the source sets `valid_cache`/uses the entry. -/
def validCached (gate : Bool) (now : Int) : Option (Int × α) → Option α
  | some (exp, d) => if gate && decide (now < exp) then some d else none
  | none => none

/-- Parsing of the S3 `Authorization` header value (line 133):
`s.split(' ')[1].rsplit(':', 1)`.  `crashIndex` models the `IndexError`
when the header has no second space-separated field, `crashUnpack` the
`ValueError` when the two-target unpacking of a one-element `rsplit` result
fails (no colon). -/
inductive S3Parse where
  | crashIndex
  | crashUnpack
  | parsed (apikey sig : String)
deriving DecidableEq

/-- Line 133: extract `(s3_apikey, s3_signature)` from the header value. -/
def s3ParseHeader (s : String) : S3Parse :=
  match (pySplitAll s ' ')[1]? with
  | none => S3Parse.crashIndex
  | some second =>
    match pyRsplitColon second with
    | none => S3Parse.crashUnpack
    | some (k, v) => S3Parse.parsed k v

/-- Lines 153-156: the replacement written into the path — the account
carrying the configured reseller prefix, or the bare account when no prefix
is configured. -/
def pfxAccount (cfg : Conf) (account : String) : String :=
  if cfg.reseller_pfx = "" then account else cfg.reseller_pfx ++ "_" ++ account

/-- The S3 block of `__call__` (lines 130-162). -/
def s3Stage (cfg : Conf) (cr : Crypto) (cache : Cache) (env : Env) (now : Int) : Step :=
  let st0 : MidSt :=
    { identity := none, tokenVar := none, path_info := env.path_info
      s3_called := false, creds_called := false }
  if truthy env.authorization && pyStartsWith (env.authorization.getD "") "AWS" then
    match s3ParseHeader (env.authorization.getD "") with
    | S3Parse.crashIndex => Step.ret (earlyResult st0 (Outcome.crash "IndexError"))
    | S3Parse.crashUnpack => Step.ret (earlyResult st0 (Outcome.crash "ValueError"))
    | S3Parse.parsed apikey sig =>
      if apikey ≠ "" ∧ sig ≠ "" then
        match validCached (decide (0 < cfg.cache_timeout)) now
            (cache.s3key ("mauth_s3_apikey/" ++ apikey)) with
        | some data =>
          match cr.urlsafe_b64decode (env.x_auth_token.getD "") with
          | none => Step.ret (earlyResult st0 (Outcome.crash "binascii.Error"))
          | some s3_token =>
            if sig = cr.sign (data.secret.getD "") s3_token then
              match data.identity with
              | none => Step.ret (earlyResult st0 (Outcome.crash "AttributeError"))
              | some id =>
                Step.cont { st0 with
                  identity := some id
                  tokenVar := some (some id.token)
                  path_info := pyReplace env.path_info apikey (pfxAccount cfg id.account) }
            else
              Step.cont st0
        | none => Step.cont { st0 with s3_called := true }
      else
        Step.ret (earlyResult st0 (Outcome.forward Hook.denyHook none none st0.path_info))
  else
    Step.cont st0

/-- The non-S3 block of `__call__` (lines 164-203): path parsing, the
auth-endpoint credential flow, and the bearer-token header read. -/
def authStage (cfg : Conf) (cache : Cache) (env : Env) (now : Int) (st : MidSt) : Step :=
  if truthy env.authorization then
    Step.cont st
  else
    match split_path12 env.path_info with
    | none => Step.ret (earlyResult st Outcome.notFound)
    | some (piece, _) =>
      if piece = "auth" ∨ piece = "v1.0" then
        if truthy env.x_auth_user && truthy env.x_auth_key then
          match validCached
              (decide (0 < cfg.cache_timeout) && decide (0 < env.x_auth_ttl.getD 1)) now
              (cache.creds ("mauth_creds/" ++ env.x_auth_user.getD "" ++ "/" ++
                env.x_auth_key.getD "")) with
          | some data =>
            Step.ret (earlyResult st (Outcome.respond data.token data.account_url))
          | none => Step.cont { st with creds_called := true }
        else
          Step.ret (earlyResult st (Outcome.forward Hook.denyHook none none st.path_info))
      else
        Step.cont { st with
          tokenVar := some (match env.x_auth_token with
            | some t => some t
            | none => env.x_storage_token) }

/-- A successful final forward (lines 240-245): install the identity,
synthesize `REMOTE_USER` from the joined role list, install `authorize`. -/
def finalForward (st : MidSt) (id : Identity) (vcalled : Bool)
    (ws : List (String × Int × Identity)) : CallResult :=
  { outcome := Outcome.forward Hook.authorizeHook (some id)
      (some (joinColon id.roles)) st.path_info
    called_get_s3_identity := st.s3_called
    called_get_identity := st.creds_called
    called_validate_token := vcalled
    writes := ws }

/-- The tail of `__call__` (lines 205-245): anonymous pass-through, the
token-cache lookup, and the `validate_token` provider fallback. -/
def finishStage (cfg : Conf) (pr : Provider) (cache : Cache) (env : Env) (now : Int)
    (st : MidSt) : CallResult :=
  match st.identity with
  | some id => finalForward st id false []
  | none =>
    let tokHdr : Option String :=
      match env.x_auth_token with
      | some t => some t
      | none => env.x_storage_token
    if truthy tokHdr = false then
      { outcome := Outcome.forward Hook.authorizeHook none none st.path_info
        called_get_s3_identity := st.s3_called
        called_get_identity := st.creds_called
        called_validate_token := false
        writes := [] }
    else
      match st.tokenVar with
      | none => earlyResult st (Outcome.crash "UnboundLocalError")
      | some tok =>
        let key := "mauth_token/" ++ tok.getD "None"
        match validCached (decide (0 < cfg.cache_timeout)) now (cache.tokenC key) with
        | some id => finalForward st id false []
        | none =>
          match pr.validate_token tok with
          | some id => finalForward st id true [(key, id.expires, id)]
          | none =>
            { outcome := Outcome.forward Hook.denyHook none none st.path_info
              called_get_s3_identity := st.s3_called
              called_get_identity := st.creds_called
              called_validate_token := true
              writes := [] }

/-- `MultiAuth.__call__` (lines 126-245). -/
def mauthCall (cfg : Conf) (cr : Crypto) (pr : Provider) (cache : Cache)
    (env : Env) (now : Int) : CallResult :=
  match s3Stage cfg cr cache env now with
  | Step.ret r => r
  | Step.cont st =>
    match authStage cfg cache env now st with
    | Step.ret r => r
    | Step.cont st2 => finishStage cfg pr cache env now st2

/-! ## C1: ownership -/

/-- C1: for every authorize call whose path has a non-empty account segment
starting with the configured reseller prefix, if the account segment after
stripping the prefix (and its separator) equals the resolved identity's
account, `authorize` returns Allow with the owner flag set
(`swift_owner = True`), whatever the container ACL's referrer outcome and
group names are; and conversely the owner flag is only ever set by this
ownership rule. -/
theorem ownership_sets_owner (cfg : Conf) (req : AuthReq) (id : Identity)
    (v acct : String) (c o : Option String)
    (hid : req.identity = some id)
    (hsplit : split_path14 req.path = some (v, some acct, c, o))
    (hne : acct ≠ "")
    (hpre : pyStartsWith acct cfg.reseller_pfx = true)
    (hacc : stripPfx cfg acct = id.account) :
    authorize cfg req = Decision.allow true ∧
    ∀ (cfg2 : Conf) (r2 : AuthReq), authorize cfg2 r2 = Decision.allow true →
      ∃ v2 a2 c2 o2 id2, split_path14 r2.path = some (v2, some a2, c2, o2) ∧
        r2.identity = some id2 ∧ stripPfx cfg2 a2 = id2.account := by
  constructor
  · simp only [authorize, hsplit, hid, Option.map_some', Option.getD_some]
    rw [if_neg, if_pos]
    · rw [hacc]
    · intro hcon
      rcases hcon with h | h
      · simp [truthy, hne] at h
      · rw [hpre] at h
        exact Bool.noConfusion h
  · intro cfg2 r2 h
    cases hs : split_path14 r2.path with
    | none =>
      unfold authorize at h
      rw [hs] at h
      exact absurd h (by simp)
    | some tup =>
      obtain ⟨v2, ao, c2, o2⟩ := tup
      unfold authorize at h
      rw [hs] at h
      simp only at h
      split_ifs at h with h1 h2 h3 h4 h5 h6
      · exact absurd h (denied_response_ne_allow r2 true)
      · cases hao : ao with
        | none =>
          rw [hao] at h1
          push_neg at h1
          exact absurd rfl h1.1
        | some a2 =>
          rw [hao] at h2
          cases hi : r2.identity with
          | none =>
            rw [hi] at h2
            simp at h2
          | some id2 =>
            rw [hi] at h2
            simp only [Option.map_some', Option.getD_some, Option.some.injEq] at h2
            exact ⟨v2, a2, c2, o2, id2, rfl, rfl, h2⟩
      · simp at h
      · simp at h
      · exact absurd h (denied_response_ne_allow r2 true)
      · simp at h
      · exact absurd h (denied_response_ne_allow r2 true)

/-- Concrete middleware configuration for the C1 witness (reseller prefix
`AUTH`, the default cache timeout and sync-host list). -/
def cfgC1w : Conf :=
  { reseller_pfx := "AUTH", cache_timeout := 86400, storage_url := ""
    allowed_sync_hosts := ["127.0.0.1"] }

/-- Concrete identity for the C1 witness. -/
def idC1w : Identity :=
  { account := "alice", roles := ["admin"], token := "T1", expires := 4102444800
    account_url := "", secret := none }

/-- Concrete authorize request for the C1 witness: scenario B's path with a
referrer-matching ACL whose groups would not grant access. -/
def reqC1w : AuthReq :=
  { path := "/v1/AUTH_alice/c1/obj", identity := some idC1w
    swift_sync_key := none, sync_key_header := none, has_timestamp := false
    remote_addr := "10.1.1.1", remote_client := "10.1.1.1"
    refererMatches := true, groups := ["other"], remote_user := some "admin" }

/-- C1 witness: the ownership theorem applied at scenario B's concrete
request. -/
theorem ownership_sets_owner_witness :
    authorize cfgC1w reqC1w = Decision.allow true ∧
    ∀ (cfg2 : Conf) (r2 : AuthReq), authorize cfg2 r2 = Decision.allow true →
      ∃ v2 a2 c2 o2 id2, split_path14 r2.path = some (v2, some a2, c2, o2) ∧
        r2.identity = some id2 ∧ stripPfx cfg2 a2 = id2.account :=
  ownership_sets_owner cfgC1w reqC1w idC1w "v1" "AUTH_alice" (some "c1") (some "obj")
    rfl rfl (by decide) (by decide) (by decide)

/-! ## C2: referrer short-circuit -/

/-- Concrete configuration for the C2 counterexample. -/
def cfgC2x : Conf :=
  { reseller_pfx := "AUTH", cache_timeout := 86400, storage_url := ""
    allowed_sync_hosts := ["127.0.0.1"] }

/-- Concrete identity for the C2 counterexample: alice with role `admin`. -/
def idC2x : Identity :=
  { account := "alice", roles := ["admin"], token := "T1", expires := 4102444800
    account_url := "", secret := none }

/-- Concrete request for the C2 counterexample: a container path (no object
segment) owned by the caller, with a matching referrer rule and ACL groups
`['admin']` (no `.rlistings`). -/
def reqC2x : AuthReq :=
  { path := "/v1/AUTH_alice/c1", identity := some idC2x
    swift_sync_key := none, sync_key_header := none, has_timestamp := false
    remote_addr := "10.1.1.1", remote_client := "10.1.1.1"
    refererMatches := true, groups := ["admin"], remote_user := some "admin" }

/-- C2 counterexample: all of the claim's conditions hold at this request —
the referrer matches a referrer rule, the parsed path has no object segment,
and the ACL groups do not contain `.rlistings` (the identity's roles even
intersect the groups) — yet `authorize` returns Allow (with owner set, via
the earlier ownership rule) rather than the claimed Deny: the claim's
universal statement is false on the code. -/
theorem referrer_shortcut_cex :
    reqC2x.refererMatches = true ∧
    split_path14 reqC2x.path = some ("v1", some "AUTH_alice", some "c1", none) ∧
    reqC2x.groups.contains ".rlistings" = false ∧
    (reqC2x.identity.map (fun i => i.roles)).getD [] = ["admin"] ∧
    reqC2x.groups = ["admin"] ∧
    authorize cfgC2x reqC2x = Decision.allow true := by
  refine ⟨rfl, by decide, by decide, by decide, rfl, by decide⟩

/-- C2 (amended): provided the rules that precede the referrer check do not
fire — the (stripped) path account does not equal the identity's account and
container-sync delegation fails — a referrer-rule match on a path with no
truthy object segment whose ACL groups lack `.rlistings` yields the denial
response (403 when a principal was established, else 401) without the
role-ACL check ever being reached: the conclusion is independent of the
identity's roles, even when they intersect the ACL group names. -/
theorem referrer_shortcut_amended (cfg : Conf) (req : AuthReq)
    (v : String) (ao c o : Option String)
    (hsplit : split_path14 req.path = some (v, ao, c, o))
    (hobj : truthy o = false)
    (href : req.refererMatches = true)
    (hlist : req.groups.contains ".rlistings" = false)
    (hown : some (stripPfx cfg (ao.getD "")) ≠ req.identity.map (fun i => i.account))
    (hsync : syncAllowed cfg req = false) :
    authorize cfg req = denied_response req := by
  unfold authorize
  rw [hsplit]
  simp only
  by_cases h1 : truthy ao = false ∨ pyStartsWith (ao.getD "") cfg.reseller_pfx = false
  · rw [if_pos h1]
  · rw [if_neg h1, if_neg hown,
      if_neg (show ¬ syncAllowed cfg req = true by simp [hsync]),
      if_pos href,
      if_neg (show ¬ (truthy o || req.groups.contains ".rlistings") = true by
        intro hcon
        rw [hobj, hlist] at hcon
        exact Bool.noConfusion hcon)]

/-- Concrete request for the C2 amended witness: same ACL situation as the
counterexample but the caller does not own the account (path account `bob`),
so the referrer short-circuit fires and denies with 403 (principal set)
despite the roles intersecting the groups. -/
def reqC2w : AuthReq :=
  { path := "/v1/AUTH_bob/c1", identity := some idC2x
    swift_sync_key := none, sync_key_header := none, has_timestamp := false
    remote_addr := "10.1.1.1", remote_client := "10.1.1.1"
    refererMatches := true, groups := ["admin"], remote_user := some "admin" }

/-- C2 witness: the amended theorem applied at a concrete request whose
roles intersect the ACL groups; the result is the Forbidden denial. -/
theorem referrer_shortcut_amended_witness :
    authorize cfgC2x reqC2w = Decision.forbidden := by
  have h := referrer_shortcut_amended cfgC2x reqC2w "v1" (some "AUTH_bob")
    (some "c1") none rfl rfl rfl (by decide) (by decide) (by decide)
  simpa [denied_response, reqC2w, truthy] using h

/-! ## C8: path validity -/

/-- Concrete configuration for the C8 counterexample (empty reseller
prefix, so even the prefix gate is as permissive as possible). -/
def cfgC8x : Conf :=
  { reseller_pfx := "", cache_timeout := 86400, storage_url := ""
    allowed_sync_hosts := ["127.0.0.1"] }

/-- Concrete request for the C8 counterexample: the path `/v1` parses (the
source's `split_path` only demands one segment) but yields no account
segment. -/
def reqC8x : AuthReq :=
  { path := "/v1", identity := none
    swift_sync_key := none, sync_key_header := none, has_timestamp := false
    remote_addr := "10.1.1.1", remote_client := "10.1.1.1"
    refererMatches := false, groups := [], remote_user := none }

/-- C8 counterexample: the path `/v1` does not parse into an account
segment (the account component is `none`), yet `authorize` returns the
Unauthorized denial of `denied_response` — produced by the reseller-prefix
gate of line 257 — not the claimed `Deny{NotFound}`. -/
theorem path_validity_cex :
    split_path14 reqC8x.path = some ("v1", none, none, none) ∧
    authorize cfgC8x reqC8x = Decision.unauthorized := by
  refine ⟨by decide, by decide⟩

/-- C8 (amended): `authorize` answers `Deny{NotFound}` exactly when the
request path fails the source's `split_path(path, 1, 4, rest_with_last)`
parse — i.e. fails to parse into at least a *version* segment; a path that
parses but lacks an account segment is instead denied through
`denied_response` (401/403), by the reseller-prefix gate. -/
theorem path_validity_amended (cfg : Conf) (req : AuthReq) :
    (authorize cfg req = Decision.notFound ↔ split_path14 req.path = none) ∧
    (∀ v c o, split_path14 req.path = some (v, none, c, o) →
      authorize cfg req = denied_response req) := by
  constructor
  · constructor
    · intro h
      cases hs : split_path14 req.path with
      | none => rfl
      | some tup =>
        obtain ⟨v2, ao, c2, o2⟩ := tup
        unfold authorize at h
        rw [hs] at h
        simp only at h
        split_ifs at h <;>
          exact absurd h.symm (denied_response_ne_notFound req).symm
    · intro h
      unfold authorize
      rw [h]
  · intro v c o hs
    unfold authorize
    rw [hs]
    simp only
    rw [if_pos]
    left
    rfl

/-- Concrete request for the C8 amended witness. -/
def reqC8w : AuthReq :=
  { path := "/v1", identity := none
    swift_sync_key := none, sync_key_header := none, has_timestamp := false
    remote_addr := "10.2.2.2", remote_client := "10.2.2.2"
    refererMatches := false, groups := ["g"], remote_user := none }

/-- C8 witness: the amended theorem applied at the concrete account-less
path `/v1`, yielding the Unauthorized denial. -/
theorem path_validity_amended_witness :
    authorize cfgC8x reqC8w = Decision.unauthorized := by
  have h := (path_validity_amended cfgC8x reqC8w).2 "v1" none none rfl
  simpa [denied_response, reqC8w, truthy] using h

/-! ## C3: expired cache entries are misses -/

/-- Drops a cache entry whose stored `expires` is not strictly later than
`now`. -/
def pruneEntry (now : Int) : Option (Int × α) → Option (Int × α)
  | some (exp, d) => if now < exp then some (exp, d) else none
  | none => none

/-- The cache with every entry that is expired at time `now` removed. -/
def pruneCache (c : Cache) (now : Int) : Cache :=
  { s3key := fun k => pruneEntry now (c.s3key k)
    creds := fun k => pruneEntry now (c.creds k)
    tokenC := fun k => pruneEntry now (c.tokenC k) }

theorem validCached_pruneEntry (gate : Bool) (now : Int) (e : Option (Int × α)) :
    validCached gate now (pruneEntry now e) = validCached gate now e := by
  cases e with
  | none => rfl
  | some p =>
    obtain ⟨exp, d⟩ := p
    by_cases h : now < exp
    · simp [pruneEntry, h]
    · simp [pruneEntry, validCached, h]

theorem s3Stage_prune (cfg : Conf) (cr : Crypto) (c : Cache) (env : Env) (now : Int) :
    s3Stage cfg cr (pruneCache c now) env now = s3Stage cfg cr c env now := by
  simp only [s3Stage, pruneCache, validCached_pruneEntry]

theorem authStage_prune (cfg : Conf) (c : Cache) (env : Env) (now : Int) (st : MidSt) :
    authStage cfg (pruneCache c now) env now st = authStage cfg c env now st := by
  simp only [authStage, pruneCache, validCached_pruneEntry]

theorem finishStage_prune (cfg : Conf) (pr : Provider) (c : Cache) (env : Env)
    (now : Int) (st : MidSt) :
    finishStage cfg pr (pruneCache c now) env now st = finishStage cfg pr c env now st := by
  simp only [finishStage, pruneCache, validCached_pruneEntry]

/-- C3: a cache entry whose stored `expires` is not strictly in the future
at read time is treated exactly like a missing entry, in all three
resolution paths at once: running `__call__` against the cache with all
expired entries removed gives the identical result (same outcome, same
provider calls, same cache writes).  Hence a cached identity is only ever
used when its entry satisfies `expires > now`, and otherwise resolution
falls through to the provider path. -/
theorem expired_cache_is_miss (cfg : Conf) (cr : Crypto) (pr : Provider)
    (cache : Cache) (env : Env) (now : Int) :
    mauthCall cfg cr pr (pruneCache cache now) env now =
      mauthCall cfg cr pr cache env now := by
  unfold mauthCall
  rw [s3Stage_prune]
  cases s3Stage cfg cr cache env now with
  | ret r => rfl
  | cont st =>
    simp only
    rw [authStage_prune]
    cases authStage cfg cache env now st with
    | ret r => rfl
    | cont st2 =>
      simp only
      rw [finishStage_prune]

/-! ## C4: auth-endpoint creds cache hit -/

/-- C4: on an auth-endpoint request (leading path segment `auth` or `v1.0`)
carrying truthy `X-Auth-User` and `X-Auth-Key`, when caching is enabled
(`cache_timeout > 0`, as in the default configuration of 86400), the creds
cache holds an entry whose `expires` is in the future, and the request's
desired-TTL signal (`X-Auth-TTL`, defaulting to enabled) is non-zero,
`__call__` returns the direct response whose `x-auth-token` and
`x-storage-token` headers carry the cached identity's token and whose
`x-storage-url` header carries its `account_url`, with no provider entry
point invoked and the downstream handler never reached. -/
theorem creds_cache_hit_responds (cfg : Conf) (cr : Crypto) (pr : Provider)
    (cache : Cache) (env : Env) (now : Int) (piece : String) (rest : Option String)
    (exp : Int) (data : Identity)
    (hct : 0 < cfg.cache_timeout)
    (hs3 : truthy env.authorization = false)
    (hparse : split_path12 env.path_info = some (piece, rest))
    (hpiece : piece = "auth" ∨ piece = "v1.0")
    (huser : truthy env.x_auth_user = true)
    (hkey : truthy env.x_auth_key = true)
    (hcache : cache.creds ("mauth_creds/" ++ env.x_auth_user.getD "" ++ "/" ++
      env.x_auth_key.getD "") = some (exp, data))
    (httl : env.x_auth_ttl.getD 1 ≠ 0)
    (hexp : now < exp) :
    mauthCall cfg cr pr cache env now =
      { outcome := Outcome.respond data.token data.account_url
        called_get_s3_identity := false
        called_get_identity := false
        called_validate_token := false
        writes := [] } := by
  have httl2 : 0 < env.x_auth_ttl.getD 1 := Nat.pos_of_ne_zero httl
  unfold mauthCall s3Stage authStage
  rcases hpiece with h | h <;>
    subst h <;>
    simp [hs3, hparse, huser, hkey, validCached, hcache, hexp, hct, httl2, earlyResult]

/-- Concrete configuration for the C4 witness (defaults, no prefix). -/
def cfgC4w : Conf :=
  { reseller_pfx := "", cache_timeout := 86400, storage_url := ""
    allowed_sync_hosts := ["127.0.0.1"] }

/-- Concrete cached identity for the C4 witness (scenario A's alice). -/
def idC4w : Identity :=
  { account := "alice", roles := ["admin"], token := "T1", expires := 2000
    account_url := "http://127.0.0.1:8080/v1/AUTH_alice", secret := none }

/-- Concrete environment for the C4 witness: an auth request to `/v1.0`
with credentials and no token headers. -/
def envC4w : Env :=
  { authorization := none, x_auth_user := some "alice", x_auth_key := some "k1"
    x_auth_token := none, x_storage_token := none, x_auth_ttl := none
    path_info := "/v1.0" }

/-- Concrete cache for the C4 witness: one fresh creds entry. -/
def cacheC4w : Cache :=
  { s3key := fun _ => none
    creds := fun k => if k = "mauth_creds/alice/k1" then some (1000, idC4w) else none
    tokenC := fun _ => none }

/-- Trivial crypto collaborator for witnesses that never reach the S3 path. -/
def crTrivial : Crypto :=
  { urlsafe_b64decode := fun _ => some "", sign := fun _ _ => "" }

/-- Trivial provider collaborator that always rejects. -/
def prTrivial : Provider :=
  { validate_token := fun _ => none }

/-- C4 witness: the theorem applied at the concrete auth request, with the
cached token and storage URL emitted directly. -/
theorem creds_cache_hit_responds_witness :
    mauthCall cfgC4w crTrivial prTrivial cacheC4w envC4w 500 =
      { outcome := Outcome.respond "T1" "http://127.0.0.1:8080/v1/AUTH_alice"
        called_get_s3_identity := false
        called_get_identity := false
        called_validate_token := false
        writes := [] } := by
  have h := creds_cache_hit_responds cfgC4w crTrivial prTrivial cacheC4w envC4w 500
    "v1.0" none 1000 idC4w (by decide) (by decide) (by decide) (Or.inr rfl)
    (by decide) (by decide) (by decide) (by decide) (by decide)
  simpa [idC4w] using h

/-! ## Shared trivial collaborators for concrete evaluations -/

/-- The empty cache. -/
def cacheEmpty : Cache :=
  { s3key := fun _ => none, creds := fun _ => none, tokenC := fun _ => none }

/-! ## C5: S3 signature mismatch on a cache hit -/

/-- Concrete configuration for the C5 evaluation. -/
def cfgC5x : Conf :=
  { reseller_pfx := "AUTH", cache_timeout := 86400, storage_url := ""
    allowed_sync_hosts := ["127.0.0.1"] }

/-- Concrete cached identity for the C5 evaluation. -/
def idC5x : Identity :=
  { account := "alice", roles := ["admin"], token := "TK", expires := 4000
    account_url := "", secret := none }

/-- Concrete S3 cache for the C5 evaluation: a fresh entry for `AKIAXXX`
with a secret. -/
def cacheC5x : Cache :=
  { s3key := fun k =>
      if k = "mauth_s3_apikey/AKIAXXX" then
        some (1000, { secret := some "s3secret", identity := some idC5x })
      else none
    creds := fun _ => none
    tokenC := fun _ => none }

/-- Concrete crypto for the C5 evaluation: the challenge decodes fine but
the recomputed signature is `goodsig`, different from the presented
`badsig`. -/
def crC5x : Crypto :=
  { urlsafe_b64decode := fun s => if s = "QUJD" then some "ABC" else none
    sign := fun _ _ => "goodsig" }

/-- Concrete environment for the C5 evaluation: an S3 request presenting
signature `badsig` with the challenge token header present. -/
def envC5x : Env :=
  { authorization := some "AWS AKIAXXX:badsig", x_auth_user := none
    x_auth_key := none, x_auth_token := some "QUJD", x_storage_token := none
    x_auth_ttl := none, path_info := "/v1/AKIAXXX" }

/-- C5: evaluation at the failing input.  On a non-expired S3 cache hit
whose recomputed signature differs from the presented one, the code indeed
never invokes the S3 provider entry point as a fallback
(`called_get_s3_identity = false`) — but the request is not denied either:
control falls through to the token-resolution tail with the local `token`
still unbound, and `__call__` raises `UnboundLocalError` (line 216). -/
theorem s3_sig_mismatch_behavior :
    mauthCall cfgC5x crC5x prTrivial cacheC5x envC5x 0 =
      { outcome := Outcome.crash "UnboundLocalError"
        called_get_s3_identity := false
        called_get_identity := false
        called_validate_token := false
        writes := [] } := by
  decide

/-! ## C6: malformed S3 Authorization header -/

/-- Concrete configuration for the C6 evaluation. -/
def cfgC6x : Conf :=
  { reseller_pfx := "AUTH", cache_timeout := 86400, storage_url := ""
    allowed_sync_hosts := ["127.0.0.1"] }

/-- Concrete environment for the C6 evaluation: scenario D's header
`AWS malformed`, which has no colon to split on. -/
def envC6a : Env :=
  { authorization := some "AWS malformed", x_auth_user := none
    x_auth_key := none, x_auth_token := none, x_storage_token := none
    x_auth_ttl := none, path_info := "/v1/acc" }

/-- Concrete environment for the C6 evaluation, second shape: a colon is
present but the signature component is empty. -/
def envC6b : Env :=
  { authorization := some "AWS key:", x_auth_user := none
    x_auth_key := none, x_auth_token := none, x_storage_token := none
    x_auth_ttl := none, path_info := "/v1/acc" }

/-- C6: evaluation at the failing inputs.  For `AWS malformed` (no
colon-splittable signature) the two-target unpacking of
`rsplit(':', 1)` raises an uncaught `ValueError` — there is no immediate
401.  For `AWS key:` (empty signature component) the middleware does not
respond immediately either: it forwards the request downstream with the
deny-only hook installed.  In both cases no provider entry point is
called. -/
theorem s3_malformed_header_behavior :
    mauthCall cfgC6x crTrivial prTrivial cacheEmpty envC6a 0 =
      { outcome := Outcome.crash "ValueError"
        called_get_s3_identity := false
        called_get_identity := false
        called_validate_token := false
        writes := [] } ∧
    mauthCall cfgC6x crTrivial prTrivial cacheEmpty envC6b 0 =
      { outcome := Outcome.forward Hook.denyHook none none "/v1/acc"
        called_get_s3_identity := false
        called_get_identity := false
        called_validate_token := false
        writes := [] } := by
  refine ⟨by decide, by decide⟩

/-! ## C7: S3 path rewrite -/

/-- Modelled from the spec: the provider-side S3 resolution
(`get_s3_identity`) lives in `mauth.extensions`, which is not part of the
sources here — only its interface stub (line 117) is.  Per the spec, on
provider success the request path is rewritten by replacing the literal
access-key segment with `{reseller_prefix}_{account}`, or the bare account
when no prefix is configured — the same rewrite the in-source cache-hit
path performs on lines 153-156. -/
def providerS3Rewrite (cfg : Conf) (path apikey account : String) : String :=
  pyReplace path apikey (pfxAccount cfg account)

/-- C7: for every S3 request resolved from a non-expired cache entry (the
in-source resolution path), the environment's path is rewritten by
replacing the access-key string with `{reseller_prefix}_{account}` from the
resolved identity (bare account when no prefix is configured), and the
request is forwarded with that identity; the provider-side resolution path
(modelled from the spec, `providerS3Rewrite`) performs the identical
rewrite. -/
theorem s3_path_rewrite (cfg : Conf) (cr : Crypto) (pr : Provider) (cache : Cache)
    (env : Env) (now : Int) (apikey sig s3tok : String) (exp : Int) (data : S3Data)
    (id : Identity) (p acct : String)
    (htr : truthy env.authorization = true)
    (hsw : pyStartsWith (env.authorization.getD "") "AWS" = true)
    (hparse : s3ParseHeader (env.authorization.getD "") = S3Parse.parsed apikey sig)
    (hak : apikey ≠ "") (hsg : sig ≠ "")
    (hcache : cache.s3key ("mauth_s3_apikey/" ++ apikey) = some (exp, data))
    (hct : 0 < cfg.cache_timeout) (hexp : now < exp)
    (hdec : cr.urlsafe_b64decode (env.x_auth_token.getD "") = some s3tok)
    (hsig : sig = cr.sign (data.secret.getD "") s3tok)
    (hid : data.identity = some id) :
    (mauthCall cfg cr pr cache env now).outcome =
      Outcome.forward Hook.authorizeHook (some id) (some (joinColon id.roles))
        (pyReplace env.path_info apikey (pfxAccount cfg id.account)) ∧
    providerS3Rewrite cfg p apikey acct = pyReplace p apikey (pfxAccount cfg acct) := by
  constructor
  · unfold mauthCall s3Stage authStage finishStage
    simp [htr, hsw, hparse, hak, hsg, validCached, hcache, hct, hexp, hdec, ← hsig,
      hid, finalForward]
  · rfl

/-- Concrete configuration for the C7 witness (scenario C: prefix `AUTH`). -/
def cfgC7w : Conf :=
  { reseller_pfx := "AUTH", cache_timeout := 86400, storage_url := ""
    allowed_sync_hosts := ["127.0.0.1"] }

/-- Concrete identity for the C7 witness. -/
def idC7w : Identity :=
  { account := "alice", roles := ["admin"], token := "TK", expires := 4000
    account_url := "", secret := some "s3secret" }

/-- Concrete S3 cache for the C7 witness. -/
def cacheC7w : Cache :=
  { s3key := fun k =>
      if k = "mauth_s3_apikey/AKIAXXX" then
        some (1000, { secret := some "s3secret", identity := some idC7w })
      else none
    creds := fun _ => none
    tokenC := fun _ => none }

/-- Concrete crypto for the C7 witness: decoding the challenge gives `raw`
and signing `raw` with `s3secret` gives `sig1`, matching the presented
signature. -/
def crC7w : Crypto :=
  { urlsafe_b64decode := fun s => if s = "tok64" then some "raw" else none
    sign := fun sec msg => if sec = "s3secret" ∧ msg = "raw" then "sig1" else "bad" }

/-- Concrete environment for the C7 witness: scenario C's request. -/
def envC7w : Env :=
  { authorization := some "AWS AKIAXXX:sig1", x_auth_user := none
    x_auth_key := none, x_auth_token := some "tok64", x_storage_token := none
    x_auth_ttl := none, path_info := "/v1/AKIAXXX" }

/-- C7 witness: the theorem applied at scenario C's request; the path
segment `AKIAXXX` is rewritten to `AUTH_alice` on both resolution paths. -/
theorem s3_path_rewrite_witness :
    (mauthCall cfgC7w crC7w prTrivial cacheC7w envC7w 0).outcome =
      Outcome.forward Hook.authorizeHook (some idC7w) (some "admin") "/v1/AUTH_alice" ∧
    providerS3Rewrite cfgC7w "/v1/AKIAXXX" "AKIAXXX" "alice" = "/v1/AUTH_alice" := by
  have h := s3_path_rewrite cfgC7w crC7w prTrivial cacheC7w envC7w 0
    "AKIAXXX" "sig1" "raw" 1000
    { secret := some "s3secret", identity := some idC7w } idC7w
    "/v1/AKIAXXX" "alice"
    (by decide) (by decide) (by decide) (by decide) (by decide) (by decide)
    (by decide) (by decide) (by decide) (by decide) (by decide)
  exact ⟨h.1.trans (by decide), h.2.trans (by decide)⟩

/-! ## C9: anonymous pass-through -/

/-- Concrete configuration for the C9 counterexample. -/
def cfgC9x : Conf :=
  { reseller_pfx := "AUTH", cache_timeout := 86400, storage_url := ""
    allowed_sync_hosts := ["127.0.0.1"] }

/-- Concrete environment for the C9 counterexample: a request to the auth
endpoint `/v1.0` with no headers at all. -/
def envC9x : Env :=
  { authorization := none, x_auth_user := none, x_auth_key := none
    x_auth_token := none, x_storage_token := none, x_auth_ttl := none
    path_info := "/v1.0" }

/-- C9 counterexample: a request carrying neither an S3 Authorization
header nor any token header, for which the middleware does NOT install the
`authorize` hook — because its path leads to the auth endpoint and the
credentials are missing, `__call__` forwards downstream with the deny-only
`denied_response` hook instead (line 200): the claim's universal statement
is false on the code. -/
theorem anonymous_passthrough_cex :
    envC9x.authorization = none ∧ envC9x.x_auth_token = none ∧
    envC9x.x_storage_token = none ∧
    mauthCall cfgC9x crTrivial prTrivial cacheEmpty envC9x 0 =
      { outcome := Outcome.forward Hook.denyHook none none "/v1.0"
        called_get_s3_identity := false
        called_get_identity := false
        called_validate_token := false
        writes := [] } := by
  refine ⟨rfl, rfl, rfl, by decide⟩

/-- C9 (amended): for every request carrying neither an Authorization
header nor token headers, whose path parses and whose leading segment is
not one of the auth-endpoint markers `auth`/`v1.0`, the middleware forwards
the request downstream with no identity, no principal and the `authorize`
hook installed, touching no provider entry point; and every subsequent
`authorize` call on a parseable path with no identity, failing
container-sync and no referrer-rule match (so the role check, run over the
absent identity's empty role list, fails too) denies via `denied_response`,
whose 401-versus-403 choice is determined solely by whether a principal
(`REMOTE_USER`) was established. -/
theorem anonymous_passthrough_amended (cfg : Conf) (cr : Crypto) (pr : Provider)
    (cache : Cache) (env : Env) (now : Int) (piece : String) (rest : Option String)
    (hs3 : env.authorization = none)
    (ht : env.x_auth_token = none)
    (hst : env.x_storage_token = none)
    (hparse : split_path12 env.path_info = some (piece, rest))
    (hna : piece ≠ "auth") (hnv : piece ≠ "v1.0") :
    mauthCall cfg cr pr cache env now =
      { outcome := Outcome.forward Hook.authorizeHook none none env.path_info
        called_get_s3_identity := false
        called_get_identity := false
        called_validate_token := false
        writes := [] } ∧
    ∀ (cfg2 : Conf) (req : AuthReq) (v : String) (ao c o : Option String),
      split_path14 req.path = some (v, ao, c, o) →
      req.identity = none →
      syncAllowed cfg2 req = false →
      req.refererMatches = false →
      authorize cfg2 req = denied_response req ∧
        denied_response req =
          (if truthy req.remote_user then Decision.forbidden else Decision.unauthorized) := by
  constructor
  · unfold mauthCall s3Stage authStage finishStage
    simp [hs3, truthy, hparse, hna, hnv, ht, hst, earlyResult]
  · intro cfg2 req v ao c o hs hident hsync href
    refine ⟨?_, rfl⟩
    unfold authorize
    rw [hs]
    simp only
    by_cases h1 : truthy ao = false ∨ pyStartsWith (ao.getD "") cfg2.reseller_pfx = false
    · rw [if_pos h1]
    · rw [if_neg h1,
        if_neg (show ¬ some (stripPfx cfg2 (ao.getD "")) =
          Option.map (fun i => i.account) req.identity by
            rw [hident]
            exact fun hcon => Option.noConfusion hcon),
        if_neg (show ¬ syncAllowed cfg2 req = true by simp [hsync]),
        if_neg (show ¬ req.refererMatches = true by simp [href]),
        if_neg (show ¬ ((Option.map (fun i => i.roles) req.identity).getD []).any
            (fun r => req.groups.contains r) = true by
          rw [hident]
          exact fun hcon => Bool.noConfusion hcon)]

/-- Concrete environment for the C9 amended witness: an anonymous request
to a storage path. -/
def envC9w : Env :=
  { authorization := none, x_auth_user := none, x_auth_key := none
    x_auth_token := none, x_storage_token := none, x_auth_ttl := none
    path_info := "/v1/AUTH_a/c" }

/-- Concrete role-less authorize request for the C9 amended witness. -/
def reqC9w : AuthReq :=
  { path := "/v1/AUTH_b/c", identity := none
    swift_sync_key := none, sync_key_header := none, has_timestamp := false
    remote_addr := "10.3.3.3", remote_client := "10.3.3.3"
    refererMatches := false, groups := ["g"], remote_user := none }

/-- C9 witness: the amended theorem applied at a concrete anonymous
request; the request is forwarded with the `authorize` hook and the
subsequent role-less authorize call denies with 401. -/
theorem anonymous_passthrough_amended_witness :
    mauthCall cfgC9x crTrivial prTrivial cacheEmpty envC9w 0 =
      { outcome := Outcome.forward Hook.authorizeHook none none "/v1/AUTH_a/c"
        called_get_s3_identity := false
        called_get_identity := false
        called_validate_token := false
        writes := [] } ∧
    authorize cfgC9x reqC9w = Decision.unauthorized := by
  have h := anonymous_passthrough_amended cfgC9x crTrivial prTrivial cacheEmpty
    envC9w 0 "v1" (some "AUTH_a/c") rfl rfl rfl (by decide) (by decide) (by decide)
  have h2 := h.2 cfgC9x reqC9w "v1" (some "AUTH_b") (some "c") none
    (by decide) rfl (by decide) rfl
  exact ⟨h.1.trans (by decide), h2.1.trans (by decide)⟩

/-! ## C10: decode failure during S3 cached verification -/

/-- Concrete configuration for the C10 evaluation. -/
def cfgC10x : Conf :=
  { reseller_pfx := "AUTH", cache_timeout := 86400, storage_url := ""
    allowed_sync_hosts := ["127.0.0.1"] }

/-- Concrete identity for the C10 evaluation. -/
def idC10x : Identity :=
  { account := "alice", roles := ["admin"], token := "TK", expires := 4000
    account_url := "", secret := none }

/-- Concrete S3 cache for the C10 evaluation. -/
def cacheC10x : Cache :=
  { s3key := fun k =>
      if k = "mauth_s3_apikey/AKIAXXX" then
        some (1000, { secret := some "s3secret", identity := some idC10x })
      else none
    creds := fun _ => none
    tokenC := fun _ => none }

/-- Concrete crypto for the C10 evaluation: `abc` has length 3, not a
multiple of 4, so `base64.urlsafe_b64decode` raises (incorrect padding). -/
def crC10x : Crypto :=
  { urlsafe_b64decode := fun _ => none
    sign := fun _ _ => "whatever" }

/-- Concrete environment for the C10 evaluation: an S3 request whose
challenge-token header `abc` is not valid urlsafe base64. -/
def envC10x : Env :=
  { authorization := some "AWS AKIAXXX:sig1", x_auth_user := none
    x_auth_key := none, x_auth_token := some "abc", x_storage_token := none
    x_auth_ttl := none, path_info := "/v1/AKIAXXX" }

/-- C10: evaluation at the failing input.  When the challenge-token header
fails to base64-decode during the S3 cached-identity verification, the
exception is not contained: line 146 has no handler, so the decode error
escapes `__call__` (the request is not denied, it errors out).  The cached
identity is left unused and no provider entry point is called. -/
theorem s3_decode_failure_behavior :
    mauthCall cfgC10x crC10x prTrivial cacheC10x envC10x 0 =
      { outcome := Outcome.crash "binascii.Error"
        called_get_s3_identity := false
        called_get_identity := false
        called_validate_token := false
        writes := [] } := by
  decide
